import Mathlib

/-!
Verification of the `RopeDragging` environment (`rope_dragging.py`).

The per-step numerical computations of the environment are embedded as Lean
functions over the reals: the reward pipeline of `_compute_reward_and_done`,
the termination / truncation flags, the running-statistics updates, the
payload observation broadcast of `_compute_state_and_obs`, the reset-time
statistics zeroing of `_reset_idx`, and the uniform samplers configured in
`__init__`.  Special floating-point values only matter for the NaN check of
the termination logic, so that part is embedded over a small value type with
IEEE-style comparison behaviour, with finite values carried as rationals.
-/

namespace RopeDragging

/-- Mean over the last dimension of a tensor, as a mean of a list of reals
(`tensor.mean(-1)`). -/
noncomputable def meanList (l : List ℝ) : ℝ := l.sum / l.length

/-- Euclidean distance between two 3-d points, as in
`torch.norm(a - b, dim=-1)`. -/
noncomputable def dist3 (p q : Fin 3 → ℝ) : ℝ :=
  Real.sqrt (∑ i, (p i - q i) ^ 2)

/-- The off-diagonal pairwise distances of `_compute_state_and_obs`:
`drone_rpos = off_diag(cpos(drone_pos, drone_pos))` followed by
`drone_pdist = torch.norm(drone_rpos, dim=-1)` lists, for every ordered pair
of distinct drone indices, the distance between the two positions. -/
noncomputable def pairDists (ps : List (Fin 3 → ℝ)) : List ℝ :=
  (List.range ps.length).flatMap fun i =>
    ((List.range ps.length).filter fun j => j ≠ i).map fun j =>
      dist3 (ps.getD i fun _ => 0) (ps.getD j fun _ => 0)

/-- `separation = drone_pdist.min(dim=-2).values.min(dim=-2).values`: the
minimum pairwise distance between drones (0 if fewer than two drones). -/
noncomputable def separation (ps : List (Fin 3 → ℝ)) : ℝ :=
  match pairDists ps with
  | [] => 0
  | d :: ds => ds.foldl min d

/-- `reward_separation = torch.square(separation / safe_distance).clamp(0, 1)`. -/
noncomputable def reward_separation (safe sep : ℝ) : ℝ :=
  min (max ((sep / safe) ^ 2) 0) 1

/-- The task configuration fields of `__init__` that enter the reward. -/
structure Cfg where
  reward_effort_weight : ℝ
  reward_spin_weight : ℝ
  reward_swing_weight : ℝ
  reward_action_smoothness_weight : ℝ
  reward_distance_scale : ℝ
  safe_distance : ℝ

/-- The simulator state read by `_compute_reward_and_done` for one
environment instance: the cached 6-d relative pose to the target, the payload
up axis, the payload 6-d velocity (linear components 0..2, angular components
3..5), the first 16 joint positions and the corresponding joint limits, the
per-agent effort and throttle differences, and the drone positions. -/
structure StepState where
  target_payload_rpose : Fin 6 → ℝ
  payload_up : Fin 3 → ℝ
  payload_vels : Fin 6 → ℝ
  joint_pos : Fin 16 → ℝ
  joint_limits : Fin 16 → ℝ
  effort : List ℝ
  throttle_difference : List ℝ
  drone_pos : List (Fin 3 → ℝ)

/-- `distance = torch.norm(self.target_payload_rpose, dim=-1)`. -/
noncomputable def distance (s : StepState) : ℝ :=
  Real.sqrt (∑ i, s.target_payload_rpose i ^ 2)

/-- `reward_pose = torch.exp(-distance * self.reward_distance_scale)`. -/
noncomputable def reward_pose (c : Cfg) (s : StepState) : ℝ :=
  Real.exp (-distance s * c.reward_distance_scale)

/-- `reward_up = torch.square((up + 1) / 2)` with `up = payload_up[:, 2]`. -/
noncomputable def reward_up (s : StepState) : ℝ :=
  ((s.payload_up 2 + 1) / 2) ^ 2

/-- `spinnage = vels[:, -3:].abs().sum(-1)`. -/
noncomputable def spinnage (s : StepState) : ℝ :=
  |s.payload_vels 3| + |s.payload_vels 4| + |s.payload_vels 5|

/-- `reward_spin = self.reward_spin_weight * torch.exp(-torch.square(spinnage))`. -/
noncomputable def reward_spin (c : Cfg) (s : StepState) : ℝ :=
  c.reward_spin_weight * Real.exp (-spinnage s ^ 2)

/-- `swing = vels[:, :3].abs().sum(-1)`. -/
noncomputable def swing (s : StepState) : ℝ :=
  |s.payload_vels 0| + |s.payload_vels 1| + |s.payload_vels 2|

/-- `reward_swing = self.reward_swing_weight * torch.exp(-torch.square(swing))`. -/
noncomputable def reward_swing (c : Cfg) (s : StepState) : ℝ :=
  c.reward_swing_weight * Real.exp (-swing s ^ 2)

/-- `reward_effort = self.reward_effort_weight * torch.exp(-self.effort).mean(-1)`. -/
noncomputable def reward_effort (c : Cfg) (s : StepState) : ℝ :=
  c.reward_effort_weight * meanList (s.effort.map fun e => Real.exp (-e))

/-- `joint_positions = get_joint_positions()[..., :16] / joint_limits[..., :16, 0].abs()`. -/
noncomputable def joint_positions (s : StepState) (i : Fin 16) : ℝ :=
  s.joint_pos i / |s.joint_limits i|

/-- `reward_joint_limit = 0.5 * torch.mean(1 - torch.square(joint_positions), dim=-1)`. -/
noncomputable def reward_joint_limit (s : StepState) : ℝ :=
  0.5 * ((∑ i, (1 - joint_positions s i ^ 2)) / 16)

/-- `reward_action_smoothness = self.reward_action_smoothness_weight * -self.drone.throttle_difference`,
one entry per agent. -/
noncomputable def reward_action_smoothness (c : Cfg) (s : StepState) : List ℝ :=
  s.throttle_difference.map fun t => c.reward_action_smoothness_weight * (-t)

/-- The per-instance reward scalar assigned by lines 360-368 of
`_compute_reward_and_done`:
`reward_separation * (reward_pose + reward_pose * (reward_up + reward_spin + reward_swing)
 + reward_joint_limit + reward_action_smoothness.mean(1, True) + reward_effort)`. -/
noncomputable def reward (c : Cfg) (s : StepState) : ℝ :=
  reward_separation c.safe_distance (separation s.drone_pos) *
    (reward_pose c s
      + reward_pose c s * (reward_up s + reward_spin c s + reward_swing c s)
      + reward_joint_limit s
      + meanList (reward_action_smoothness c s)
      + reward_effort c s)

/-- `reward[:] = (...).unsqueeze(-1)`: the per-instance scalar broadcast to
every one of the `drone.n` agents. -/
noncomputable def rewards (c : Cfg) (s : StepState) : List ℝ :=
  List.replicate s.drone_pos.length (reward c s)

/-! ### Termination and truncation

The drone state tensor may carry special floating-point values, which is all
the NaN check of `_compute_reward_and_done` is about, so this part is
embedded over a small value type: finite values are carried as rationals and
the comparisons used by the code follow IEEE semantics. -/

/-- A floating-point value as it matters for the done computation: a finite
value, NaN, positive infinity or negative infinity. -/
inductive FVal where
  | num (q : ℚ)
  | nan
  | posInf
  | negInf
deriving DecidableEq

/-- `torch.isnan` on one value. -/
def FVal.isNaN : FVal → Bool
  | .nan => true
  | _ => false

/-- Whether the value is finite (neither NaN nor an infinity). -/
def FVal.finiteV : FVal → Bool
  | .num _ => true
  | _ => false

/-- The IEEE comparison `v < c` against a finite constant `c`: false whenever
`v` is NaN, false for positive infinity, true for negative infinity. -/
def FVal.ltc : FVal → ℚ → Bool
  | .num q, c => decide (q < c)
  | .nan, _ => false
  | .posInf, _ => false
  | .negInf, _ => true

/-- The drone state vectors of one instance, one list of entries per drone;
the altitude is the entry at index 2. -/
abbrev DroneStates : Type := List (List FVal)

/-- `misbehave = (self.drone_states[..., 2] < 0.2).any(-1)`; the threshold
`0.2` is the rational one fifth. -/
def misbehave (st : DroneStates) : Bool :=
  st.any fun s => (s.getD 2 (FVal.num 0)).ltc (mkRat 1 5)

/-- `hasnan = torch.isnan(self.drone_states).any(-1)`, reduced over drones:
`hasnan.any(-1)`. -/
def hasnan (st : DroneStates) : Bool :=
  st.any fun s => s.any FVal.isNaN

/-- `terminated = misbehave | hasnan.any(-1, keepdim=True)`. -/
def terminatedFlag (st : DroneStates) : Bool :=
  misbehave st || hasnan st

/-- Whether some drone state entry is non-finite (NaN or an infinity); this
is the condition the specification words ascribe to the `hasnan` check. -/
def hasNonFinite (st : DroneStates) : Bool :=
  st.any fun s => s.any fun v => !v.finiteV

/-- `truncated = (self.progress_buf >= self.max_episode_length)`. -/
def truncatedFlag (progress maxLen : ℕ) : Bool :=
  decide (maxLen ≤ progress)

/-- The three boolean flags returned in the output batch of
`_compute_reward_and_done`. -/
structure DoneOutput where
  done : Bool
  terminated : Bool
  truncated : Bool
deriving DecidableEq

/-- Lines 383-391: the output carries `done = terminated | truncated` next to
the separate `terminated` and `truncated` flags. -/
def doneOutput (st : DroneStates) (progress maxLen : ℕ) : DoneOutput :=
  { done := terminatedFlag st || truncatedFlag progress maxLen
    terminated := terminatedFlag st
    truncated := truncatedFlag progress maxLen }

/-- Modelled from the spec: the elapsed step counter `progress_buf` is owned
by the base environment class, which is not part of this file; per the spec
it counts elapsed steps, so after stepping an instance `k` times from reset
the count handed to the done computation is `k`. -/
def progressAfter (k : ℕ) : ℕ := k

/-! ### Running statistics -/

/-- The per-instance running statistics of `stats_spec`: `return` and
`action_smoothness` have one entry per agent, the others are scalars. -/
structure Stats (n : ℕ) where
  ret : Fin n → ℝ
  episode_len : ℝ
  pos_error : ℝ
  heading_alignment : ℝ
  uprightness : ℝ
  action_smoothness : Fin n → ℝ

/-- `torch.Tensor.lerp_(sample, w)`: `a + w * (sample - a)`. -/
noncomputable def lerpR (a sample w : ℝ) : ℝ := a + w * (sample - a)

/-- `self.alpha = 0.8` from `__init__`. -/
noncomputable def alphaVal : ℝ := 0.8

/-- The statistics updates of lines 376-381 of `_compute_reward_and_done`:
accumulate the mean reward into `return`, overwrite `episode_len` with the
progress counter, and exponentially smooth the other four statistics with
`lerp_(sample, 1 - alpha)`. -/
noncomputable def updateStats {n : ℕ} (st : Stats n) (rewardMean : ℝ)
    (progress : ℕ) (posError headingAlign upZ : ℝ)
    (negThrottleDiff : Fin n → ℝ) : Stats n :=
  { ret := fun i => st.ret i + rewardMean
    episode_len := (progress : ℝ)
    pos_error := lerpR st.pos_error posError (1 - alphaVal)
    heading_alignment := lerpR st.heading_alignment headingAlign (1 - alphaVal)
    uprightness := lerpR st.uprightness upZ (1 - alphaVal)
    action_smoothness := fun i =>
      lerpR (st.action_smoothness i) (negThrottleDiff i) (1 - alphaVal) }

/-- The all-zero statistics value, `stats_spec.zero()` for one instance. -/
def zeroStats (n : ℕ) : Stats n :=
  { ret := fun _ => 0
    episode_len := 0
    pos_error := 0
    heading_alignment := 0
    uprightness := 0
    action_smoothness := fun _ => 0 }

/-- `self.stats[env_ids] = 0.` in `_reset_idx`: the statistics of every
instance in `env_ids` become zero, the others keep their value. -/
def resetStats {n : ℕ} (stats : ℕ → Stats n) (envIds : List ℕ) : ℕ → Stats n :=
  fun e => if e ∈ envIds then zeroStats n else stats e

/-! ### Reset-time samplers

`__init__` builds uniform distributions; a draw from
`D.Uniform(lo, hi)` is `lo + (hi - lo) * u` for a latent `u` in `[0, 1]`
(for a degenerate bound `lo = hi` the draw is exactly `lo`). -/

/-- One coordinate of a uniform draw with latent `u ∈ [0, 1]`. -/
noncomputable def sampleUniform (lo hi u : ℝ) : ℝ := lo + (hi - lo) * u

/-- Lower corner of `init_pos_dist`: `[-3, -3, 1]`. -/
noncomputable def initPosLo : Fin 3 → ℝ := ![-3, -3, 1]

/-- Upper corner of `init_pos_dist`: `[3, 3, 2.5]`. -/
noncomputable def initPosHi : Fin 3 → ℝ := ![3, 3, 2.5]

/-- A draw from `init_pos_dist` with latent `u`. -/
noncomputable def initPosSample (u : Fin 3 → ℝ) : Fin 3 → ℝ :=
  fun i => sampleUniform (initPosLo i) (initPosHi i) (u i)

/-- Lower bound of `init_rpy_dist`: `[0, 0, 0] * pi`. -/
noncomputable def initRpyLo : Fin 3 → ℝ := fun i => ![0, 0, 0] i * Real.pi

/-- Upper bound of `init_rpy_dist`: `[0, 0, 2] * pi`. -/
noncomputable def initRpyHi : Fin 3 → ℝ := fun i => ![0, 0, 2] i * Real.pi

/-- A draw from `init_rpy_dist` with latent `u`: roll, pitch, yaw. -/
noncomputable def initRpySample (u : Fin 3 → ℝ) : Fin 3 → ℝ :=
  fun i => sampleUniform (initRpyLo i) (initRpyHi i) (u i)

/-- A draw from `payload_target_rpy_dist`, whose lower and upper bounds are
both `[0, 0, 0] * pi`. -/
noncomputable def payloadTargetRpySample (u : Fin 3 → ℝ) : Fin 3 → ℝ :=
  fun i => sampleUniform (![0, 0, 0] i * Real.pi) (![0, 0, 0] i * Real.pi) (u i)

/-- Modelled from the spec: `euler_to_quaternion`, a utility of this
repository that lives outside this file, converts roll-pitch-yaw Euler
angles to a unit quaternion `(w, x, y, z)` by the standard half-angle
composition. -/
noncomputable def eulerToQuaternion (r p y : ℝ) : Fin 4 → ℝ :=
  ![Real.cos (r / 2) * Real.cos (p / 2) * Real.cos (y / 2)
      + Real.sin (r / 2) * Real.sin (p / 2) * Real.sin (y / 2),
    Real.sin (r / 2) * Real.cos (p / 2) * Real.cos (y / 2)
      - Real.cos (r / 2) * Real.sin (p / 2) * Real.sin (y / 2),
    Real.cos (r / 2) * Real.sin (p / 2) * Real.cos (y / 2)
      + Real.sin (r / 2) * Real.cos (p / 2) * Real.sin (y / 2),
    Real.cos (r / 2) * Real.cos (p / 2) * Real.sin (y / 2)
      - Real.sin (r / 2) * Real.sin (p / 2) * Real.cos (y / 2)]

/-- Modelled from the spec: `quat_axis(q, 0)`, a utility of this repository
that lives outside this file, is the body x axis (the heading) of the
rotation of quaternion `q = (w, x, y, z)`: the first column of its rotation
matrix. -/
noncomputable def quatAxis0 (q : Fin 4 → ℝ) : Fin 3 → ℝ :=
  ![1 - 2 * (q 2 ^ 2 + q 3 ^ 2),
    2 * (q 1 * q 2 + q 0 * q 3),
    2 * (q 1 * q 3 - q 0 * q 2)]

/-! ### Payload observation broadcast -/

/-- The shared `payload_state` of `_compute_state_and_obs` lines 290-300:
the 6-d relative pose to target, the rotation quaternion, the 6-d velocity,
the heading and up axes, and, when time encoding is on, four copies of
`progress_buf / max_episode_length`. -/
noncomputable def payloadStateVec (rpose : Fin 6 → ℝ) (rot : Fin 4 → ℝ)
    (vels : Fin 6 → ℝ) (heading upAxis : Fin 3 → ℝ) (timeEncoding : Bool)
    (progress maxLen : ℕ) : List ℝ :=
  List.ofFn rpose ++ List.ofFn rot ++ List.ofFn vels ++ List.ofFn heading
    ++ List.ofFn upAxis
    ++ (if timeEncoding then List.replicate 4 ((progress : ℝ) / (maxLen : ℝ))
        else [])

/-- `obs["obs_payload"] = payload_state.expand(-1, self.drone.n, -1)`: the one
shared payload state vector, replicated to each of the `n` agents. -/
noncomputable def obsPayload (n : ℕ) (rpose : Fin 6 → ℝ) (rot : Fin 4 → ℝ)
    (vels : Fin 6 → ℝ) (heading upAxis : Fin 3 → ℝ) (timeEncoding : Bool)
    (progress maxLen : ℕ) : List (List ℝ) :=
  List.replicate n
    (payloadStateVec rpose rot vels heading upAxis timeEncoding progress maxLen)

/-! ### Helper lemmas -/

lemma dist3_nonneg (p q : Fin 3 → ℝ) : 0 ≤ dist3 p q :=
  Real.sqrt_nonneg _

lemma foldl_min_nonneg (l : List ℝ) (d : ℝ) (hd : 0 ≤ d)
    (hl : ∀ x ∈ l, 0 ≤ x) : 0 ≤ l.foldl min d := by
  induction l generalizing d with
  | nil => exact hd
  | cons a as ih =>
    simp only [List.foldl_cons]
    exact ih _ (le_min hd (hl a (by simp))) fun x hx => hl x (by simp [hx])

lemma mem_pairDists_nonneg (ps : List (Fin 3 → ℝ)) :
    ∀ x ∈ pairDists ps, 0 ≤ x := by
  intro x hx
  simp only [pairDists, List.mem_flatMap, List.mem_map, List.mem_filter] at hx
  obtain ⟨i, -, j, -, rfl⟩ := hx
  exact dist3_nonneg _ _

lemma separation_nonneg (ps : List (Fin 3 → ℝ)) : 0 ≤ separation ps := by
  unfold separation
  cases h : pairDists ps with
  | nil => exact le_refl 0
  | cons d ds =>
    refine foldl_min_nonneg ds d ?_ ?_
    · exact mem_pairDists_nonneg ps d (h ▸ List.mem_cons_self d ds)
    · exact fun x hx => mem_pairDists_nonneg ps x (h ▸ List.mem_cons_of_mem d hx)

lemma rewards_getD (c : Cfg) (s : StepState) (i : ℕ)
    (hi : i < s.drone_pos.length) : (rewards c s).getD i 0 = reward c s := by
  unfold rewards
  rw [List.getD_eq_getElem _ _ (by simpa using hi), List.getElem_replicate]

/-! ### Claim theorems -/

/-- C1: at every step, the per-agent reward computed by
`_compute_reward_and_done` equals
`reward_separation * (reward_pose + reward_pose * (reward_up + reward_spin + reward_swing)
 + reward_joint_limit + mean(reward_action_smoothness) + reward_effort)` with
`reward_pose = exp(-distance * distance_scale)` for `distance` the norm of the
6-d relative pose to target, `reward_up = ((payload_up_z + 1)/2)^2`,
`reward_spin = spin_weight * exp(-(sum |angular vel|)^2)`,
`reward_swing = swing_weight * exp(-(sum |linear vel|)^2)`,
`reward_effort = effort_weight * mean(exp(-effort))`, and
`reward_joint_limit = 0.5 * mean(1 - (joint_pos/joint_limit)^2)` over the
first 16 joints. -/
theorem reward_formula_correct (c : Cfg) (s : StepState) (i : ℕ)
    (hi : i < s.drone_pos.length) :
    (rewards c s).getD i 0 =
      reward_separation c.safe_distance (separation s.drone_pos) *
        (Real.exp (-Real.sqrt (∑ k, s.target_payload_rpose k ^ 2)
            * c.reward_distance_scale)
          + Real.exp (-Real.sqrt (∑ k, s.target_payload_rpose k ^ 2)
              * c.reward_distance_scale)
            * (((s.payload_up 2 + 1) / 2) ^ 2
              + c.reward_spin_weight * Real.exp
                  (-(|s.payload_vels 3| + |s.payload_vels 4| + |s.payload_vels 5|) ^ 2)
              + c.reward_swing_weight * Real.exp
                  (-(|s.payload_vels 0| + |s.payload_vels 1| + |s.payload_vels 2|) ^ 2))
          + 0.5 * ((∑ k, (1 - (s.joint_pos k / s.joint_limits k) ^ 2)) / 16)
          + meanList (reward_action_smoothness c s)
          + c.reward_effort_weight * meanList (s.effort.map fun e => Real.exp (-e))) := by
  rw [rewards_getD c s i hi]
  have hjl : ∑ k, (1 - joint_positions s k ^ 2)
      = ∑ k, (1 - (s.joint_pos k / s.joint_limits k) ^ 2) := by
    refine Finset.sum_congr rfl fun k _ => ?_
    rw [joint_positions, div_pow, div_pow, sq_abs]
  unfold reward reward_pose distance reward_up reward_spin spinnage reward_swing
    swing reward_effort reward_joint_limit
  rw [hjl]

/-- C1 witness: the reward formula at a concrete configuration and state. -/
theorem reward_formula_correct_witness :
    0 < ([fun _ => (0:ℝ), fun _ => 1] : List (Fin 3 → ℝ)).length ∧
    (rewards ⟨1, 1, 1, 1, 1, 1⟩
        ⟨fun _ => 0, fun _ => 0, fun _ => 0, fun _ => 0, fun _ => 1, [0], [0],
          [fun _ => 0, fun _ => 1]⟩).getD 0 0 =
      reward_separation (1:ℝ) (separation [fun _ => 0, fun _ => 1]) *
        (Real.exp (-Real.sqrt (∑ _k : Fin 6, (0:ℝ) ^ 2) * 1)
          + Real.exp (-Real.sqrt (∑ _k : Fin 6, (0:ℝ) ^ 2) * 1)
            * ((((0:ℝ) + 1) / 2) ^ 2
              + 1 * Real.exp (-(|(0:ℝ)| + |(0:ℝ)| + |(0:ℝ)|) ^ 2)
              + 1 * Real.exp (-(|(0:ℝ)| + |(0:ℝ)| + |(0:ℝ)|) ^ 2))
          + 0.5 * ((∑ _k : Fin 16, (1 - ((0:ℝ) / 1) ^ 2)) / 16)
          + meanList (reward_action_smoothness ⟨1, 1, 1, 1, 1, 1⟩
              ⟨fun _ => 0, fun _ => 0, fun _ => 0, fun _ => 0, fun _ => 1, [0], [0],
                [fun _ => 0, fun _ => 1]⟩)
          + 1 * meanList (([0] : List ℝ).map fun e => Real.exp (-e))) :=
  ⟨by norm_num,
    reward_formula_correct ⟨1, 1, 1, 1, 1, 1⟩
      ⟨fun _ => 0, fun _ => 0, fun _ => 0, fun _ => 0, fun _ => 1, [0], [0],
        [fun _ => 0, fun _ => 1]⟩ 0 (by norm_num)⟩

/-- C3: `reward_separation = clamp((separation/safe_distance)^2, 0, 1)` for
`separation` the minimum pairwise drone distance: it lies in `[0, 1]`, equals
1 when `separation ≥ safe_distance`, is strictly below 1 otherwise, equals 0
at `separation = 0`; with `safe_distance = 0.5`, separation `0.5` gives 1 and
separation `0.25` gives `0.25`. -/
theorem reward_separation_clamp (ps : List (Fin 3 → ℝ)) (safe : ℝ)
    (hsafe : 0 < safe) :
    (0 ≤ reward_separation safe (separation ps)
      ∧ reward_separation safe (separation ps) ≤ 1)
    ∧ (safe ≤ separation ps → reward_separation safe (separation ps) = 1)
    ∧ (separation ps < safe → reward_separation safe (separation ps) < 1)
    ∧ (separation ps = 0 → reward_separation safe (separation ps) = 0)
    ∧ reward_separation (1 / 2) (1 / 2) = 1
    ∧ reward_separation (1 / 2) (1 / 4) = 1 / 4 := by
  have hsep : 0 ≤ separation ps := separation_nonneg ps
  unfold reward_separation
  refine ⟨⟨le_min (le_max_right _ 0) zero_le_one, min_le_right _ 1⟩, ?_, ?_, ?_, ?_, ?_⟩
  · intro h
    have h1 : (1:ℝ) ≤ separation ps / safe := (one_le_div hsafe).mpr h
    have h2 : (1:ℝ) ≤ (separation ps / safe) ^ 2 := by nlinarith
    rw [max_eq_left (by nlinarith : (0:ℝ) ≤ (separation ps / safe) ^ 2)]
    exact min_eq_right h2
  · intro h
    have h1 : separation ps / safe < 1 := (div_lt_one hsafe).mpr h
    have h0 : (0:ℝ) ≤ separation ps / safe := div_nonneg hsep hsafe.le
    have h2 : (separation ps / safe) ^ 2 < 1 := by nlinarith
    rw [max_eq_left (by positivity : (0:ℝ) ≤ (separation ps / safe) ^ 2)]
    exact lt_of_le_of_lt (min_le_left _ 1) h2
  · intro h
    rw [h]
    norm_num
  · norm_num
  · norm_num

/-- C3 witness: the clamp properties at a concrete drone list and safe
distance. -/
theorem reward_separation_clamp_witness :
    (0:ℝ) < 1
    ∧ 0 ≤ reward_separation 1 (separation [])
    ∧ reward_separation 1 (separation []) ≤ 1
    ∧ reward_separation (1 / 2) (1 / 2) = 1
    ∧ reward_separation (1 / 2) (1 / 4) = 1 / 4 :=
  ⟨by norm_num,
    (reward_separation_clamp [] 1 (by norm_num)).1.1,
    (reward_separation_clamp [] 1 (by norm_num)).1.2,
    (reward_separation_clamp [] 1 (by norm_num)).2.2.2.2.1,
    (reward_separation_clamp [] 1 (by norm_num)).2.2.2.2.2⟩

/-- C4: whenever `reward_separation` is 0, the total reward of every agent is
0, whatever the values of the other terms. -/
theorem separation_zero_gates_reward (c : Cfg) (s : StepState)
    (h : reward_separation c.safe_distance (separation s.drone_pos) = 0)
    (i : ℕ) : (rewards c s).getD i 0 = 0 := by
  have hr : reward c s = 0 := by
    unfold reward
    rw [h]
    ring
  rcases Nat.lt_or_ge i s.drone_pos.length with hlt | hge
  · rw [rewards_getD c s i hlt, hr]
  · unfold rewards
    rw [List.getD_eq_default _ _ (by simpa using hge)]

/-- C4 witness: with two coincident drones the separation is 0 and the agent
rewards vanish. -/
theorem separation_zero_gates_reward_witness :
    (rewards ⟨1, 1, 1, 1, 1, 1⟩
        ⟨fun _ => 5, fun _ => 5, fun _ => 5, fun _ => 5, fun _ => 1, [2], [3],
          [fun _ => 0, fun _ => 0]⟩).getD 0 0 = 0 :=
  separation_zero_gates_reward ⟨1, 1, 1, 1, 1, 1⟩
    ⟨fun _ => 5, fun _ => 5, fun _ => 5, fun _ => 5, fun _ => 1, [2], [3],
      [fun _ => 0, fun _ => 0]⟩
    (by
      have h1 : dist3 (fun _ => (0:ℝ)) (fun _ => (0:ℝ)) = 0 := by
        simp [dist3]
      have h2 : pairDists [fun _ => (0:ℝ), fun _ => (0:ℝ)]
          = [dist3 (fun _ => (0:ℝ)) (fun _ => (0:ℝ)),
             dist3 (fun _ => (0:ℝ)) (fun _ => (0:ℝ))] := by
        simp [pairDists, List.range_succ, List.filter]
      have h3 : separation [fun _ => (0:ℝ), fun _ => (0:ℝ)] = 0 := by
        rw [separation, h2, h1]
        simp
      show reward_separation 1 (separation [fun _ => (0:ℝ), fun _ => (0:ℝ)]) = 0
      rw [h3]
      norm_num [reward_separation])
    0

lemma FVal.isNaN_eq_true (v : FVal) : v.isNaN = true ↔ v = FVal.nan := by
  cases v <;> simp [FVal.isNaN]

/-- C2 counterexample: a drone state holding a positive infinity at a safe
altitude. The claim would make `terminated` true there (the state contains a
non-finite value), but the code's NaN check leaves it false. -/
theorem termination_nonfinite_counterexample :
    ¬ (terminatedFlag [[FVal.num 0, FVal.num 0, FVal.num 1, FVal.posInf]] = true
        ↔ (misbehave [[FVal.num 0, FVal.num 0, FVal.num 1, FVal.posInf]] = true
            ∨ hasNonFinite [[FVal.num 0, FVal.num 0, FVal.num 1, FVal.posInf]] = true)) := by
  decide

/-- C2 amended: the terminated flag is true exactly when some drone's
altitude compares below 0.2 or some drone state entry is NaN (infinities do
not trigger the NaN check). -/
theorem termination_iff_low_or_nan (st : DroneStates) :
    terminatedFlag st = true ↔
      ((∃ s ∈ st, (s.getD 2 (FVal.num 0)).ltc (mkRat 1 5) = true)
        ∨ ∃ s ∈ st, FVal.nan ∈ s) := by
  simp only [terminatedFlag, misbehave, hasnan, Bool.or_eq_true, List.any_eq_true,
    FVal.isNaN_eq_true]
  constructor
  · rintro (⟨s, hs, h⟩ | ⟨s, hs, v, hv, rfl⟩)
    · exact Or.inl ⟨s, hs, h⟩
    · exact Or.inr ⟨s, hs, hv⟩
  · rintro (⟨s, hs, h⟩ | ⟨s, hs, hv⟩)
    · exact Or.inl ⟨s, hs, h⟩
    · exact Or.inr ⟨s, hs, FVal.nan, hv, rfl⟩

/-- C5: the output batch satisfies `done = terminated || truncated` with the
two flags reported separately; `truncated` holds exactly when the elapsed
step count has reached the configured maximum; and stepping an instance
`max_episode_length` times with neither misbehave nor NaN at any step ends
with `truncated` true and `terminated` false. -/
theorem done_flags_and_truncation (st : DroneStates) (p m : ℕ)
    (seq : ℕ → DroneStates) :
    (doneOutput st p m).done
        = ((doneOutput st p m).terminated || (doneOutput st p m).truncated)
    ∧ ((doneOutput st p m).truncated = true ↔ m ≤ p)
    ∧ ((∀ k, k ≤ m → misbehave (seq k) = false ∧ hasnan (seq k) = false) →
        (doneOutput (seq m) (progressAfter m) m).truncated = true
        ∧ (doneOutput (seq m) (progressAfter m) m).terminated = false) := by
  refine ⟨rfl, by simp [doneOutput, truncatedFlag], fun h => ?_⟩
  obtain ⟨h1, h2⟩ := h m le_rfl
  exact ⟨by simp [doneOutput, truncatedFlag, progressAfter],
    by simp [doneOutput, terminatedFlag, h1, h2]⟩

/-- C5 witness: the flag identities at concrete inputs, with a two-step
episode of healthy states ending truncated and not terminated. -/
theorem done_flags_and_truncation_witness :
    ((doneOutput [] 0 2).done
        = ((doneOutput [] 0 2).terminated || (doneOutput [] 0 2).truncated))
    ∧ ((doneOutput [] 0 2).truncated = true ↔ 2 ≤ 0)
    ∧ ((doneOutput [[FVal.num 0, FVal.num 0, FVal.num 1]] (progressAfter 2) 2).truncated
          = true
        ∧ (doneOutput [[FVal.num 0, FVal.num 0, FVal.num 1]] (progressAfter 2) 2).terminated
          = false) :=
  ⟨(done_flags_and_truncation [] 0 2 fun _ => [[FVal.num 0, FVal.num 0, FVal.num 1]]).1,
   (done_flags_and_truncation [] 0 2 fun _ => [[FVal.num 0, FVal.num 0, FVal.num 1]]).2.1,
   (done_flags_and_truncation [] 0 2 fun _ => [[FVal.num 0, FVal.num 0, FVal.num 1]]).2.2
     fun k _ => ⟨by decide, by decide⟩⟩

/-- C6: within one instance the `obs_payload` entry of every agent is the
same shared payload state vector, broadcast and not derived per agent. -/
theorem obs_payload_broadcast (n : ℕ) (rpose : Fin 6 → ℝ) (rot : Fin 4 → ℝ)
    (vels : Fin 6 → ℝ) (heading upAxis : Fin 3 → ℝ) (te : Bool)
    (progress maxLen : ℕ) (i j : ℕ) (hi : i < n) (hj : j < n) :
    (obsPayload n rpose rot vels heading upAxis te progress maxLen).getD i []
      = (obsPayload n rpose rot vels heading upAxis te progress maxLen).getD j [] := by
  unfold obsPayload
  rw [List.getD_eq_getElem _ _ (by simpa using hi),
    List.getD_eq_getElem _ _ (by simpa using hj),
    List.getElem_replicate, List.getElem_replicate]

/-- C6 witness: the two agents of a concrete instance observe the same
payload state. -/
theorem obs_payload_broadcast_witness :
    (obsPayload 2 (fun _ => 1) (fun _ => 2) (fun _ => 3) (fun _ => 4)
        (fun _ => 5) true 7 100).getD 0 []
      = (obsPayload 2 (fun _ => 1) (fun _ => 2) (fun _ => 3) (fun _ => 4)
          (fun _ => 5) true 7 100).getD 1 [] :=
  obs_payload_broadcast 2 (fun _ => 1) (fun _ => 2) (fun _ => 3) (fun _ => 4)
    (fun _ => 5) true 7 100 0 1 (by norm_num) (by norm_num)

/-- C7: each statistics update step smooths `pos_error`,
`heading_alignment`, `uprightness` and `action_smoothness` exponentially
with fixed decay 0.8: `new = 0.8 * old + 0.2 * sample`. -/
theorem stats_exponential_smoothing {n : ℕ} (st : Stats n) (rm : ℝ)
    (progress : ℕ) (pe ha uz : ℝ) (nd : Fin n → ℝ) :
    (updateStats st rm progress pe ha uz nd).pos_error
        = 0.8 * st.pos_error + 0.2 * pe
    ∧ (updateStats st rm progress pe ha uz nd).heading_alignment
        = 0.8 * st.heading_alignment + 0.2 * ha
    ∧ (updateStats st rm progress pe ha uz nd).uprightness
        = 0.8 * st.uprightness + 0.2 * uz
    ∧ ∀ i, (updateStats st rm progress pe ha uz nd).action_smoothness i
        = 0.8 * st.action_smoothness i + 0.2 * nd i := by
  refine ⟨?_, ?_, ?_, fun i => ?_⟩ <;>
    · simp only [updateStats, lerpR, alphaVal]
      ring

/-- C8: resetting a subset of instances zeroes every statistics field of the
instances in the subset and leaves every other instance's statistics
unchanged. -/
theorem reset_zeroes_stats {n : ℕ} (stats : ℕ → Stats n) (envIds : List ℕ)
    (e : ℕ) :
    (e ∈ envIds →
      (resetStats stats envIds e).ret = (fun _ => 0)
      ∧ (resetStats stats envIds e).episode_len = 0
      ∧ (resetStats stats envIds e).pos_error = 0
      ∧ (resetStats stats envIds e).heading_alignment = 0
      ∧ (resetStats stats envIds e).uprightness = 0
      ∧ (resetStats stats envIds e).action_smoothness = (fun _ => 0))
    ∧ (e ∉ envIds → resetStats stats envIds e = stats e) := by
  constructor
  · intro h
    simp only [resetStats, if_pos h]
    exact ⟨rfl, rfl, rfl, rfl, rfl, rfl⟩
  · intro h
    simp only [resetStats, if_neg h]

/-- C8 witness: resetting instance 0 zeroes its statistics and leaves
instance 1 untouched. -/
theorem reset_zeroes_stats_witness :
    ((0 : ℕ) ∈ [0]
      ∧ (resetStats (fun _ => (⟨fun _ => 1, 2, 3, 4, 5, fun _ => 6⟩ : Stats 1))
          [0] 0).pos_error = 0)
    ∧ ((1 : ℕ) ∉ [0]
      ∧ resetStats (fun _ => (⟨fun _ => 1, 2, 3, 4, 5, fun _ => 6⟩ : Stats 1)) [0] 1
          = (⟨fun _ => 1, 2, 3, 4, 5, fun _ => 6⟩ : Stats 1)) :=
  ⟨⟨by decide,
    ((reset_zeroes_stats (fun _ => (⟨fun _ => 1, 2, 3, 4, 5, fun _ => 6⟩ : Stats 1))
        [0] 0).1 (by decide)).2.2.1⟩,
   ⟨by decide,
    (reset_zeroes_stats (fun _ => (⟨fun _ => 1, 2, 3, 4, 5, fun _ => 6⟩ : Stats 1))
        [0] 1).2 (by decide)⟩⟩

/-- C10: all agents of one instance receive exactly the same reward scalar;
the effort and action-smoothness terms are averaged over agents before entering
the composite, which is then broadcast. -/
theorem reward_same_across_agents (c : Cfg) (s : StepState) (i j : ℕ)
    (hi : i < s.drone_pos.length) (hj : j < s.drone_pos.length) :
    (rewards c s).getD i 0 = (rewards c s).getD j 0 := by
  rw [rewards_getD c s i hi, rewards_getD c s j hj]

/-- C10 witness: the two agents of a concrete instance get the same
reward. -/
theorem reward_same_across_agents_witness :
    (rewards ⟨1, 2, 3, 4, 5, 6⟩
        ⟨fun _ => 1, fun _ => 1, fun _ => 1, fun _ => 1, fun _ => 2, [1, 2], [3, 4],
          [fun _ => 0, fun _ => 1]⟩).getD 0 0
      = (rewards ⟨1, 2, 3, 4, 5, 6⟩
          ⟨fun _ => 1, fun _ => 1, fun _ => 1, fun _ => 1, fun _ => 2, [1, 2], [3, 4],
            [fun _ => 0, fun _ => 1]⟩).getD 1 0 :=
  reward_same_across_agents ⟨1, 2, 3, 4, 5, 6⟩
    ⟨fun _ => 1, fun _ => 1, fun _ => 1, fun _ => 1, fun _ => 2, [1, 2], [3, 4],
      [fun _ => 0, fun _ => 1]⟩ 0 1 (by norm_num) (by norm_num)

/-- C9: every reset draw puts each initial position coordinate inside the
box `[-3,-3,1]`–`[3,3,2.5]`, makes roll and pitch exactly 0 with yaw in
`[0, 2π]`, makes the payload target orientation exactly zero, and hence the
target heading is always the fixed identity heading `(1, 0, 0)`. -/
theorem reset_sampling_bounds (u v w : Fin 3 → ℝ)
    (hu : ∀ i, 0 ≤ u i ∧ u i ≤ 1) (hv : ∀ i, 0 ≤ v i ∧ v i ≤ 1) :
    (∀ i, initPosLo i ≤ initPosSample u i ∧ initPosSample u i ≤ initPosHi i)
    ∧ initRpySample v 0 = 0
    ∧ initRpySample v 1 = 0
    ∧ (0 ≤ initRpySample v 2 ∧ initRpySample v 2 ≤ 2 * Real.pi)
    ∧ (∀ i, payloadTargetRpySample w i = 0)
    ∧ quatAxis0 (eulerToQuaternion (payloadTargetRpySample w 0)
        (payloadTargetRpySample w 1) (payloadTargetRpySample w 2)) = ![1, 0, 0] := by
  have htgt : ∀ i, payloadTargetRpySample w i = 0 := by
    intro i
    simp only [payloadTargetRpySample, sampleUniform]
    fin_cases i <;> simp
  refine ⟨?_, ?_, ?_, ?_, htgt, ?_⟩
  · intro i
    obtain ⟨h0, h1⟩ := hu i
    have hd : initPosLo i ≤ initPosHi i := by
      fin_cases i <;> norm_num [initPosLo, initPosHi]
    simp only [initPosSample, sampleUniform]
    constructor
    · nlinarith
    · nlinarith
  · simp only [initRpySample, sampleUniform, initRpyLo, initRpyHi]
    simp
  · simp only [initRpySample, sampleUniform, initRpyLo, initRpyHi]
    simp
  · obtain ⟨h0, h1⟩ := hv 2
    have hpi := Real.pi_pos
    simp only [initRpySample, sampleUniform, initRpyLo, initRpyHi]
    constructor
    · simp
      nlinarith
    · simp
      nlinarith
  · rw [htgt 0, htgt 1, htgt 2]
    funext i
    fin_cases i <;>
      norm_num [quatAxis0, eulerToQuaternion, Real.cos_zero, Real.sin_zero]

/-- C9 witness: the sampled yaw bounds and the identity target heading at
concrete latent draws. -/
theorem reset_sampling_bounds_witness :
    ((0:ℝ) ≤ 1 / 2 ∧ (1 / 2 : ℝ) ≤ 1)
    ∧ (0 ≤ initRpySample (fun _ => 1 / 2) 2
        ∧ initRpySample (fun _ => 1 / 2) 2 ≤ 2 * Real.pi)
    ∧ quatAxis0 (eulerToQuaternion (payloadTargetRpySample (fun _ => 1 / 3) 0)
        (payloadTargetRpySample (fun _ => 1 / 3) 1)
        (payloadTargetRpySample (fun _ => 1 / 3) 2)) = ![1, 0, 0] :=
  ⟨⟨by norm_num, by norm_num⟩,
   (reset_sampling_bounds (fun _ => 1 / 2) (fun _ => 1 / 2) (fun _ => 1 / 3)
      (fun _ => ⟨by norm_num, by norm_num⟩)
      (fun _ => ⟨by norm_num, by norm_num⟩)).2.2.2.1,
   (reset_sampling_bounds (fun _ => 1 / 2) (fun _ => 1 / 2) (fun _ => 1 / 3)
      (fun _ => ⟨by norm_num, by norm_num⟩)
      (fun _ => ⟨by norm_num, by norm_num⟩)).2.2.2.2.2⟩

end RopeDragging
